import Mathlib

/-!
Shallow embedding of the video upload pipeline of `file-storage-s3-ts`.

The embedded code consists of:
* `getVideoAspectRatio` and `processVideoForFastStart` from `src/utils/video.ts`;
* `handlerUploadVideo` from the upload handler module (the version that
  normalizes the video and classifies its orientation before publishing).

Effectful operations (subprocess spawning, disk writes, S3 transfer, database
update) are modelled by an explicit environment `Env` that fixes the outcome of
every external interaction of one run, and the handler is translated into a
pure function from that environment to a `RunResult` holding the outcome, the
trace of resource events, the temp files remaining on disk, and the database
updates performed.  JavaScript number arithmetic on probe dimensions is
modelled with exact rationals.
-/

/-- One video record of the metadata store (`src/db/videos`), restricted to the
fields the handler reads or writes. -/
structure Video where
  id : String
  userID : String
  videoURL : Option String
  deriving DecidableEq

/-- The parts of `ApiConfig` the embedded handler uses. -/
structure ApiConfig where
  s3CfDistribution : String

/-- The uploaded form-data file: declared size and declared media type. -/
structure UploadFile where
  size : Nat
  type : String
  deriving DecidableEq

/-- First-stream entry of the parsed ffprobe JSON.  A field absent from the
JSON is `none`; a field present with integer value `n` is `some n`. -/
structure StreamInfo where
  width : Option Int
  height : Option Int
  deriving DecidableEq

/-- The standard output of the ffprobe subprocess, as seen by
`JSON.parse(stdout)` followed by `data.streams[0]`:
* `malformed`: not valid JSON (`JSON.parse` throws);
* `noStreamsField`: valid JSON without a `streams` field (reading `[0]` of
  `undefined` throws);
* `streams l`: valid JSON whose `streams` field is the array `l`. -/
inductive ProbeStdout where
  | malformed
  | noStreamsField
  | streams (streams : List StreamInfo)
  deriving DecidableEq

/-- Behaviour of the ffprobe subprocess in one run. -/
structure FfprobeBehavior where
  exitCode : Int
  stdout : ProbeStdout
  stderr : String

/-- Behaviour of the ffmpeg subprocess in one run.  `leavesOutputOnFailure`
records whether the external tool had already created its output file on disk
when it exited with a non-zero code; on a zero exit code the output file is
always created.  The handler itself does not control this: it is a property of
the spawned tool. -/
structure FfmpegBehavior where
  exitCode : Int
  stderr : String
  leavesOutputOnFailure : Bool

/-- The environment of one `handlerUploadVideo` run: the request data, the
collaborator responses and the outcome of every external action. -/
structure Env where
  videoId : Option String
  authUserID : Option String
  video : Option Video
  videoFile : Option UploadFile
  randomFileName : String
  stageOk : Bool
  ffmpeg : FfmpegBehavior
  ffprobe : FfprobeBehavior
  s3WriteOk : Bool
  unlinkOk : String → Bool

/-- The errors the embedded code can throw.  Each constructor corresponds to
one throw site of the source; the fields are the dynamic parts of the thrown
message. -/
inductive RunError where
  | badRequest (msg : String)
  | notFoundErr (msg : String)
  | userForbidden (msg : String)
  | authFailed
  | stageWriteFailed
  | ffmpegFailed (exitCode : Int) (stderr : String)
  | ffprobeFailed (exitCode : Int) (stderr : String)
  | jsonParseFailed
  | streamsFieldMissing
  | dimensionsMissing
  | s3WriteFailed
  deriving DecidableEq

/-- Resource events of one run, in program order:
* `acquire p`: the file at path `p` was created on disk;
* `release p`: `fs.unlinkSync(p)` was invoked;
* `releaseWarn p`: that unlink threw and the error was caught and logged;
* `probe p`: ffprobe was invoked on path `p`;
* `s3Write key mediaType`: the S3 put of `key` was invoked. -/
inductive Event where
  | acquire (path : String)
  | release (path : String)
  | releaseWarn (path : String)
  | probe (path : String)
  | s3Write (key : String) (mediaType : String)
  deriving DecidableEq

/-- Result of one handler run: the returned value or thrown error, the event
trace, the temp files still on disk at return, and the arguments of every
`updateVideo` call. -/
structure RunResult where
  outcome : Except RunError Video
  events : List Event
  disk : List String
  dbUpdates : List Video

/-- `MAX_UPLOAD_SIZE = 1 << 30` (1 GB). -/
def MAX_UPLOAD_SIZE : Nat := 1 <<< 30

/-- `fileName = `${randomFileName}.mp4`` in the handler. -/
def fileName (env : Env) : String := env.randomFileName ++ ".mp4"

/-- `tempFilePath = path.join("/tmp", fileName)` in the handler. -/
def tempFilePath (env : Env) : String := "/tmp/" ++ fileName env

/-- Orientation classification of `getVideoAspectRatio` (the code following a
successful dimension extraction), on exact rationals.  Mirrors the source:
`landscapeTarget` is `landscapeRatio = 16 / 9`, `portraitTarget` is
`portraitRatio = 9 / 16`, tolerance `0.1`. -/
def classifyDims (w h : Int) : String :=
  let ar : ℚ := (w : ℚ) / (h : ℚ)
  let landscapeTarget : ℚ := 16 / 9
  let portraitTarget : ℚ := 9 / 16
  let tolerance : ℚ := 1 / 10
  if |ar - landscapeTarget| < tolerance then "landscape"
  else if |ar - portraitTarget| < tolerance then "portrait"
  else if ar > 1 then "landscape"
  else "portrait"

/-- Embedding of `getVideoAspectRatio` from `src/utils/video.ts`.  The ffprobe
subprocess behaviour is supplied by `b`.  The guard
`!stream || !stream.width || !stream.height` is a JavaScript falsy test, so a
width or height that is absent *or equal to 0* takes the error branch. -/
def getVideoAspectRatio (filePath : String) (b : FfprobeBehavior) :
    Except RunError String :=
  if b.exitCode ≠ 0 then .error (.ffprobeFailed b.exitCode b.stderr)
  else
    match b.stdout with
    | .malformed => .error .jsonParseFailed
    | .noStreamsField => .error .streamsFieldMissing
    | .streams l =>
      match l with
      | [] => .error .dimensionsMissing
      | stream :: _ =>
        match stream.width, stream.height with
        | some w, some h =>
          if w = 0 then .error .dimensionsMissing
          else if h = 0 then .error .dimensionsMissing
          else .ok (classifyDims w h)
        | _, _ => .error .dimensionsMissing

/-- Embedding of `processVideoForFastStart` from `src/utils/video.ts`: on a
non-zero ffmpeg exit code it throws carrying the exit code and the captured
stderr; on success it returns `inputFilePath + ".processed"`.  The disk side
effect of the spawned tool is accounted for in `runBody`. -/
def processVideoForFastStart (inputFilePath : String) (b : FfmpegBehavior) :
    Except RunError String :=
  let outputFilePath := inputFilePath ++ ".processed"
  if b.exitCode ≠ 0 then .error (.ffmpegFailed b.exitCode b.stderr)
  else .ok outputFilePath

/-- The checks `handlerUploadVideo` performs before any disk access, in source
order: video id, JWT, record lookup, ownership, file presence, size ceiling,
media type. -/
def preChecks (env : Env) : Except RunError (Video × UploadFile) :=
  match env.videoId with
  | none => .error (.badRequest "Invalid video ID")
  | some _ =>
    match env.authUserID with
    | none => .error .authFailed
    | some userID =>
      match env.video with
      | none => .error (.notFoundErr "Video not found")
      | some video =>
        if video.userID ≠ userID then
          .error (.userForbidden "You are not the owner of this video")
        else
          match env.videoFile with
          | none => .error (.badRequest "Video must be a file")
          | some f =>
            if f.size > MAX_UPLOAD_SIZE then
              .error (.badRequest "Video file is too large")
            else if f.type ≠ "video/mp4" then
              .error (.badRequest "Video must be an MP4 file")
            else .ok (video, f)

/-- The mutable state of one run while the `try` body executes: the two
cleanup flags of the source (`tempFileCreated`, `processedFilePath`), the temp
files currently on disk, the event trace and the database updates so far. -/
structure PipelineState where
  tempFileCreated : Bool
  processedFilePath : Option String
  disk : List String
  events : List Event
  dbUpdates : List Video

/-- The `try` block of `handlerUploadVideo`: stage the upload, normalize,
probe, publish, update the record.  Returns the body's outcome together with
the state the `finally` block will observe. -/
def runBody (cfg : ApiConfig) (env : Env) (video : Video) (f : UploadFile) :
    Except RunError Video × PipelineState :=
  let st0 : PipelineState := ⟨false, none, [], [], []⟩
  if ¬ env.stageOk then (.error .stageWriteFailed, st0)
  else
    let tfp := tempFilePath env
    let st1 : PipelineState := ⟨true, none, [tfp], [.acquire tfp], []⟩
    let outPath := tfp ++ ".processed"
    let st2 : PipelineState :=
      if env.ffmpeg.exitCode = 0 ∨ env.ffmpeg.leavesOutputOnFailure then
        { st1 with disk := st1.disk ++ [outPath],
                   events := st1.events ++ [.acquire outPath] }
      else st1
    match processVideoForFastStart tfp env.ffmpeg with
    | .error e => (.error e, st2)
    | .ok processedFilePath =>
      let st3 : PipelineState :=
        { st2 with processedFilePath := some processedFilePath,
                   events := st2.events ++ [.probe processedFilePath] }
      match getVideoAspectRatio processedFilePath env.ffprobe with
      | .error e => (.error e, st3)
      | .ok ar =>
        let key := ar ++ "/" ++ fileName env
        let st4 : PipelineState :=
          { st3 with events := st3.events ++ [.s3Write key f.type] }
        if ¬ env.s3WriteOk then (.error .s3WriteFailed, st4)
        else
          let cloudFrontURL := cfg.s3CfDistribution ++ "/" ++ key
          let updatedVideo : Video := { video with videoURL := some cloudFrontURL }
          let st5 : PipelineState :=
            { st4 with dbUpdates := st4.dbUpdates ++ [updatedVideo] }
          (.ok updatedVideo, st5)

/-- One `fs.unlinkSync(p)` wrapped in `try/catch` as in the `finally` block:
the unlink is always invoked; on failure the error is caught and a warning is
logged, the file staying on disk. -/
def releaseFile (env : Env) (p : String) (st : PipelineState) : PipelineState :=
  if env.unlinkOk p then
    { st with disk := st.disk.filter (fun q => q ≠ p),
              events := st.events ++ [.release p] }
  else
    { st with events := st.events ++ [.release p, .releaseWarn p] }

/-- The `finally` block of `handlerUploadVideo`: unlink the staged temp file
when `tempFileCreated`, then the processed file when `processedFilePath` was
set. -/
def cleanup (env : Env) (st : PipelineState) : PipelineState :=
  let st1 := if st.tempFileCreated then releaseFile env (tempFilePath env) st else st
  match st1.processedFilePath with
  | some p => releaseFile env p st1
  | none => st1

/-- Embedding of `handlerUploadVideo`: pre-checks, then the `try` body, then
the guaranteed `finally` cleanup.  Cleanup never alters the body's outcome
because both unlinks are individually guarded by `try/catch`. -/
def handlerUploadVideo (cfg : ApiConfig) (env : Env) : RunResult :=
  match preChecks env with
  | .error e => ⟨.error e, [], [], []⟩
  | .ok (video, f) =>
    let body := runBody cfg env video f
    let st := cleanup env body.2
    ⟨body.1, st.events, st.disk, st.dbUpdates⟩

/-- Paths of `acquire` events, in order. -/
def acquiredPaths (es : List Event) : List String :=
  es.filterMap fun e => match e with | .acquire p => some p | _ => none

/-- Paths of `release` events (unlink invocations), in order. -/
def releasedPaths (es : List Event) : List String :=
  es.filterMap fun e => match e with | .release p => some p | _ => none

/-- Paths of `probe` events, in order. -/
def probedPaths (es : List Event) : List String :=
  es.filterMap fun e => match e with | .probe p => some p | _ => none

/-- Keys of `s3Write` events, in order. -/
def s3Keys (es : List Event) : List String :=
  es.filterMap fun e => match e with | .s3Write k _ => some k | _ => none

/-- Whether an outcome is a validation failure, i.e. a thrown
`BadRequestError`. -/
def isValidationFailure (o : Except RunError Video) : Bool :=
  match o with
  | .error (.badRequest _) => true
  | _ => false

/-- Whether an `Except` result is an error. -/
def isErr {α : Type} (r : Except RunError α) : Bool :=
  match r with
  | .error _ => true
  | .ok _ => false

/-- Algorithm of the specification for orientation classification: ratio =
width / height; canonical landscape ratio 16/9 (≈ 1.778) and canonical
portrait ratio 9/16 (≈ 0.563), tolerance 0.1; first the two tolerance bands
in that order, then the wide/tall fallback, with ratio exactly 1 falling
through `ratio > 1` to portrait. -/
def classificationSpec (w h : Int) : String :=
  let q : ℚ := (w : ℚ) / (h : ℚ)
  if |q - 16 / 9| < 1 / 10 then "landscape"
  else if |q - 9 / 16| < 1 / 10 then "portrait"
  else if q > 1 then "landscape"
  else "portrait"

/-- Probe stdout that does not yield usable dimensions (amended C6): malformed
JSON, missing or empty streams list, or first stream whose width or height is
absent or equal to zero. -/
def probeMissingDims : ProbeStdout → Bool
  | .malformed => true
  | .noStreamsField => true
  | .streams [] => true
  | .streams (s :: _) => s.width.getD 0 == 0 || s.height.getD 0 == 0

/-- The events one guarded unlink appends to the trace: a `release`, plus a
`releaseWarn` when the unlink fails. -/
def relBlock (env : Env) (p : String) : List Event :=
  if env.unlinkOk p then [.release p] else [.release p, .releaseWarn p]

/-- Configuration of the concrete test runs. -/
def cfgW : ApiConfig := ⟨"https://cdn.example.com"⟩

/-- Video record of the concrete test runs. -/
def videoW : Video := ⟨"v1", "u1", none⟩

/-- Upload file of the concrete test runs: 1000 bytes of `video/mp4`. -/
def fileW : UploadFile := ⟨1000, "video/mp4"⟩

/-- Environment of a fully successful 1920×1080 run. -/
def envLandscape : Env :=
  ⟨some "v1", some "u1", some videoW, some fileW, "aa", true,
   ⟨0, "", false⟩, ⟨0, .streams [⟨some 1920, some 1080⟩], ""⟩, true, fun _ => true⟩

/-- Environment of a fully successful 1080×1920 run. -/
def envPortrait : Env :=
  ⟨some "v1", some "u1", some videoW, some fileW, "aa", true,
   ⟨0, "", false⟩, ⟨0, .streams [⟨some 1080, some 1920⟩], ""⟩, true, fun _ => true⟩

/-- Environment where ffmpeg exits 1 ("invalid data found") without having
created its output file. -/
def envTranscodeClean : Env :=
  ⟨some "v1", some "u1", some videoW, some fileW, "aa", true,
   ⟨1, "invalid data found", false⟩, ⟨0, .streams [⟨some 1920, some 1080⟩], ""⟩, true, fun _ => true⟩

/-- Environment where ffmpeg exits 1 ("invalid data found") having already
created its output file on disk. -/
def envTranscodeLeft : Env :=
  ⟨some "v1", some "u1", some videoW, some fileW, "aa", true,
   ⟨1, "invalid data found", true⟩, ⟨0, .streams [⟨some 1920, some 1080⟩], ""⟩, true, fun _ => true⟩

/-- Environment of an oversized upload (1 GB + 1 byte). -/
def envOversize : Env :=
  ⟨some "v1", some "u1", some videoW, some ⟨1073741825, "video/mp4"⟩, "aa", true,
   ⟨0, "", false⟩, ⟨0, .streams [⟨some 1920, some 1080⟩], ""⟩, true, fun _ => true⟩

/-- Environment of a run whose probe JSON first stream lacks the height
field. -/
def envNoHeight : Env :=
  ⟨some "v1", some "u1", some videoW, some fileW, "aa", true,
   ⟨0, "", false⟩, ⟨0, .streams [⟨some 1920, none⟩], ""⟩, true, fun _ => true⟩

/-- Environment of a failed-transcode run in which every unlink fails. -/
def envUnlinkFail : Env :=
  ⟨some "v1", some "u1", some videoW, some fileW, "aa", true,
   ⟨1, "invalid data found", false⟩, ⟨0, .streams [⟨some 1920, some 1080⟩], ""⟩, true, fun _ => false⟩

/-- Appending the `.processed` suffix changes the path. -/
theorem append_processed_ne (s : String) : s ++ ".processed" ≠ s := by
  intro h
  have h2 := congrArg String.length h
  rw [String.length_append] at h2
  have h3 : String.length ".processed" = 10 := rfl
  omega

/-- C5: `processVideoForFastStart` fails with a transcode failure carrying the
subprocess exit code and the captured stderr text whenever the subprocess
exits non-zero, and on success returns the input path with the `.processed`
suffix appended. -/
theorem c5_normalize_contract (inputFilePath : String) (b : FfmpegBehavior) :
    (b.exitCode ≠ 0 →
      processVideoForFastStart inputFilePath b =
        .error (.ffmpegFailed b.exitCode b.stderr)) ∧
    (b.exitCode = 0 →
      processVideoForFastStart inputFilePath b =
        .ok (inputFilePath ++ ".processed")) := by
  unfold processVideoForFastStart
  constructor <;> intro h <;> simp [h]

/-- Witness for C5 at exit code 1 with stderr "invalid data found", and at
exit code 0. -/
theorem c5_normalize_contract_witness :
    processVideoForFastStart "/tmp/in.mp4" ⟨1, "invalid data found", false⟩ =
      .error (.ffmpegFailed 1 "invalid data found") ∧
    processVideoForFastStart "/tmp/in.mp4" ⟨0, "", false⟩ =
      .ok "/tmp/in.mp4.processed" :=
  ⟨(c5_normalize_contract "/tmp/in.mp4" ⟨1, "invalid data found", false⟩).1 (by decide),
   (c5_normalize_contract "/tmp/in.mp4" ⟨0, "", false⟩).2 rfl⟩

/-- C6 (amended): `getVideoAspectRatio` fails exactly when the subprocess
exits non-zero or the probe output yields no usable dimensions — the expected
stream, width or height is absent, **or width or height is present but zero**
(the source tests them with a JavaScript falsy check); on a non-zero exit the
captured stderr is propagated in the failure. -/
theorem c6_probe_failure_characterization (filePath : String) (b : FfprobeBehavior) :
    (isErr ( getVideoAspectRatio filePath b) = true ↔
      (b.exitCode ≠ 0 ∨ probeMissingDims b.stdout = true)) ∧
    (b.exitCode ≠ 0 →
      getVideoAspectRatio filePath b = .error (.ffprobeFailed b.exitCode b.stderr)) := by
  constructor
  · unfold getVideoAspectRatio
    by_cases hx : b.exitCode = 0
    · cases hst : b.stdout with
      | malformed => simp [hx, hst, probeMissingDims, isErr]
      | noStreamsField => simp [hx, hst, probeMissingDims, isErr]
      | streams l =>
        cases l with
        | nil => simp [hx, hst, probeMissingDims, isErr]
        | cons s rest =>
          cases hw : s.width with
          | none => simp [hx, hst, hw, probeMissingDims, isErr]
          | some w =>
            cases hh : s.height with
            | none => simp [hx, hst, hw, hh, probeMissingDims, isErr]
            | some h =>
              by_cases hw0 : w = 0
              · simp [hx, hst, hw, hh, hw0, probeMissingDims, isErr]
              · by_cases hh0 : h = 0
                · simp [hx, hst, hw, hh, hw0, hh0, probeMissingDims, isErr]
                · simp [hx, hst, hw, hh, hw0, hh0, probeMissingDims, isErr]
    · simp [hx, isErr]
  · intro hx
    unfold getVideoAspectRatio
    simp [hx]

/-- Witness for C6 at the spec's example: probe JSON whose first stream lacks
the height field fails, and a non-zero probe exit propagates stderr. -/
theorem c6_probe_failure_characterization_witness :
    (isErr ( getVideoAspectRatio "/tmp/aa.mp4.processed"
        ⟨0, .streams [⟨some 1920, none⟩], ""⟩) = true ↔
      ((0 : Int) ≠ 0 ∨ probeMissingDims (.streams [⟨some 1920, none⟩]) = true)) ∧
    getVideoAspectRatio "/tmp/aa.mp4.processed" ⟨2, .malformed, "probe blew up"⟩ =
      .error (.ffprobeFailed 2 "probe blew up") :=
  ⟨(c6_probe_failure_characterization "/tmp/aa.mp4.processed"
      ⟨0, .streams [⟨some 1920, none⟩], ""⟩).1,
   (c6_probe_failure_characterization "/tmp/aa.mp4.processed"
      ⟨2, .malformed, "probe blew up"⟩).2 (by decide)⟩

/-- C6 counterexample to the claim as stated: a probe output whose first
stream has both the width and the height field present (width `0`, height
`720`) and a zero exit code still fails — the claim's "exactly when the
fields are absent or the process exits non-zero" does not hold. -/
theorem c6_counterexample :
    getVideoAspectRatio "/tmp/aa.mp4.processed"
        ⟨0, .streams [⟨some 0, some 720⟩], ""⟩ = .error .dimensionsMissing ∧
    (⟨some 0, some 720⟩ : StreamInfo).width ≠ none ∧
    (⟨some 0, some 720⟩ : StreamInfo).height ≠ none ∧
    (0 : Int) = 0 :=
  ⟨rfl, by decide, by decide, rfl⟩

/-- C2 (amended): for a successful probe whose first stream carries integer
width and height that are both non-zero, `getVideoAspectRatio` returns exactly
the label of the specification's four-branch algorithm, and a square ratio of
exactly 1 classifies as portrait. -/
theorem c2_classifier_matches_spec (filePath : String) (b : FfprobeBehavior)
    (w h : Int) (rest : List StreamInfo)
    (hx : b.exitCode = 0) (hs : b.stdout = .streams (⟨some w, some h⟩ :: rest))
    (hw : w ≠ 0) (hh : h ≠ 0) :
    getVideoAspectRatio filePath b = .ok (classificationSpec w h) ∧
    (w = h → getVideoAspectRatio filePath b = .ok "portrait") := by
  have h1 : getVideoAspectRatio filePath b = .ok (classifyDims w h) := by
    unfold getVideoAspectRatio
    simp [hx, hs, hw, hh]
  have h2 : classifyDims w h = classificationSpec w h := rfl
  refine ⟨by rw [h1, h2], ?_⟩
  intro hwh
  subst hwh
  rw [h1, h2]
  have hq : ((w : ℚ) / (w : ℚ)) = 1 := div_self (by exact_mod_cast hw)
  unfold classificationSpec
  rw [hq]
  norm_num [abs_lt, le_abs]

/-- Witness for C2 on a 300×300 square probe result: classified portrait. -/
theorem c2_classifier_matches_spec_witness :
    getVideoAspectRatio "/tmp/sq.mp4.processed"
        ⟨0, .streams [⟨some 300, some 300⟩], ""⟩ = .ok "portrait" :=
  (c2_classifier_matches_spec "/tmp/sq.mp4.processed"
      ⟨0, .streams [⟨some 300, some 300⟩], ""⟩ 300 300 [] rfl rfl
      (by decide) (by decide)).2 rfl

/-- C2 counterexample to the claim as stated: for width `0` and height `1080`
(integer width and height, height non-zero) the four-branch algorithm of the
claim yields portrait, but the code refuses to classify — the JavaScript falsy
test on `stream.width` sends value `0` to the error branch. -/
theorem c2_counterexample :
    getVideoAspectRatio "/tmp/zz.mp4.processed"
        ⟨0, .streams [⟨some 0, some 1080⟩], ""⟩ = .error .dimensionsMissing ∧
    classificationSpec 0 1080 = "portrait" := by
  constructor
  · rfl
  · unfold classificationSpec
    norm_num [abs_lt, le_abs]

/-- One guarded unlink appends exactly its `relBlock` to the event trace. -/
theorem releaseFile_events (env : Env) (p : String) (st : PipelineState) :
    (releaseFile env p st).events = st.events ++ relBlock env p := by
  unfold releaseFile relBlock
  split <;> rfl

/-- A guarded unlink does not change the `processedFilePath` flag. -/
theorem releaseFile_processedFilePath (env : Env) (p : String) (st : PipelineState) :
    (releaseFile env p st).processedFilePath = st.processedFilePath := by
  unfold releaseFile
  split <;> rfl

/-- A guarded unlink does not change the database updates. -/
theorem releaseFile_dbUpdates (env : Env) (p : String) (st : PipelineState) :
    (releaseFile env p st).dbUpdates = st.dbUpdates := by
  unfold releaseFile
  split <;> rfl

/-- The `finally` block appends the release blocks of the staged file and of
the processed file to the trace, in that order. -/
theorem cleanup_events (env : Env) (st : PipelineState) :
    (cleanup env st).events = st.events
      ++ (if st.tempFileCreated then relBlock env (tempFilePath env) else [])
      ++ (match st.processedFilePath with
          | some p => relBlock env p
          | none => []) := by
  unfold cleanup
  cases htf : st.tempFileCreated with
  | false =>
    simp only [htf, Bool.false_eq_true, if_false]
    cases hpf : st.processedFilePath with
    | none => simp [hpf]
    | some p => simp [hpf, releaseFile_events]
  | true =>
    simp only [htf, if_true]
    rw [releaseFile_processedFilePath]
    cases hpf : st.processedFilePath with
    | none => simp [hpf, releaseFile_events]
    | some p => simp [hpf, releaseFile_events, releaseFile_processedFilePath]

/-- Cleanup performs no database updates. -/
theorem cleanup_dbUpdates (env : Env) (st : PipelineState) :
    (cleanup env st).dbUpdates = st.dbUpdates := by
  unfold cleanup
  cases htf : st.tempFileCreated with
  | false =>
    simp only [htf, Bool.false_eq_true, if_false]
    cases hpf : st.processedFilePath with
    | none => simp [hpf]
    | some p => simp [hpf, releaseFile_dbUpdates]
  | true =>
    simp only [htf, if_true]
    rw [releaseFile_processedFilePath]
    cases hpf : st.processedFilePath with
    | none => simp [hpf, releaseFile_dbUpdates]
    | some p => simp [hpf, releaseFile_dbUpdates]

/-- A release block contains no `acquire` event. -/
theorem acquiredPaths_relBlock (env : Env) (p : String) :
    acquiredPaths (relBlock env p) = [] := by
  unfold acquiredPaths relBlock
  split <;> rfl

/-- A release block contains exactly one `release` event, for its path. -/
theorem releasedPaths_relBlock (env : Env) (p : String) :
    releasedPaths (relBlock env p) = [p] := by
  unfold releasedPaths relBlock
  split <;> rfl

/-- A release block contains no `probe` event. -/
theorem probedPaths_relBlock (env : Env) (p : String) :
    probedPaths (relBlock env p) = [] := by
  unfold probedPaths relBlock
  split <;> rfl

/-- A release block contains no `s3Write` event. -/
theorem s3Keys_relBlock (env : Env) (p : String) :
    s3Keys (relBlock env p) = [] := by
  unfold s3Keys relBlock
  split <;> rfl

/-- Acquired paths distribute over trace concatenation. -/
theorem acquiredPaths_append (a b : List Event) :
    acquiredPaths (a ++ b) = acquiredPaths a ++ acquiredPaths b := by
  unfold acquiredPaths
  simp

/-- Released paths distribute over trace concatenation. -/
theorem releasedPaths_append (a b : List Event) :
    releasedPaths (a ++ b) = releasedPaths a ++ releasedPaths b := by
  unfold releasedPaths
  simp

/-- Probed paths distribute over trace concatenation. -/
theorem probedPaths_append (a b : List Event) :
    probedPaths (a ++ b) = probedPaths a ++ probedPaths b := by
  unfold probedPaths
  simp

/-- S3 keys distribute over trace concatenation. -/
theorem s3Keys_append (a b : List Event) :
    s3Keys (a ++ b) = s3Keys a ++ s3Keys b := by
  unfold s3Keys
  simp

/-- The empty trace acquires nothing. -/
theorem acquiredPaths_nil : acquiredPaths [] = [] := rfl

/-- The empty trace releases nothing. -/
theorem releasedPaths_nil : releasedPaths [] = [] := rfl

/-- The empty trace probes nothing. -/
theorem probedPaths_nil : probedPaths [] = [] := rfl

/-- The empty trace writes no S3 key. -/
theorem s3Keys_nil : s3Keys [] = [] := rfl

/-- Cleanup acquires no file. -/
theorem acquiredPaths_cleanup (env : Env) (st : PipelineState) :
    acquiredPaths (cleanup env st).events = acquiredPaths st.events := by
  rw [cleanup_events, acquiredPaths_append, acquiredPaths_append]
  cases htf : st.tempFileCreated <;> cases hpf : st.processedFilePath <;>
    simp [htf, hpf, acquiredPaths_relBlock, acquiredPaths_nil]

/-- Cleanup probes no file. -/
theorem probedPaths_cleanup (env : Env) (st : PipelineState) :
    probedPaths (cleanup env st).events = probedPaths st.events := by
  rw [cleanup_events, probedPaths_append, probedPaths_append]
  cases htf : st.tempFileCreated <;> cases hpf : st.processedFilePath <;>
    simp [htf, hpf, probedPaths_relBlock, probedPaths_nil]

/-- Cleanup writes no S3 key. -/
theorem s3Keys_cleanup (env : Env) (st : PipelineState) :
    s3Keys (cleanup env st).events = s3Keys st.events := by
  rw [cleanup_events, s3Keys_append, s3Keys_append]
  cases htf : st.tempFileCreated <;> cases hpf : st.processedFilePath <;>
    simp [htf, hpf, s3Keys_relBlock, s3Keys_nil]

/-- Cleanup releases exactly the staged file (when created) and the processed
file (when recorded), in this order, after whatever the body released. -/
theorem releasedPaths_cleanup (env : Env) (st : PipelineState) :
    releasedPaths (cleanup env st).events = releasedPaths st.events
      ++ (if st.tempFileCreated then [tempFilePath env] else [])
      ++ st.processedFilePath.toList := by
  rw [cleanup_events, releasedPaths_append, releasedPaths_append]
  cases htf : st.tempFileCreated <;> cases hpf : st.processedFilePath <;>
    simp [htf, hpf, releasedPaths_relBlock, releasedPaths_nil]

/-- A `release` event for a path is in a trace exactly when the path is among
its released paths. -/
theorem mem_releasedPaths (p : String) (es : List Event) :
    Event.release p ∈ es ↔ p ∈ releasedPaths es := by
  unfold releasedPaths
  rw [List.mem_filterMap]
  constructor
  · intro h
    exact ⟨.release p, h, rfl⟩
  · rintro ⟨e, he, hm⟩
    cases e <;> simp at hm
    subst hm
    exact he

/-- A `probe` event for a path is in a trace exactly when the path is among
its probed paths. -/
theorem mem_probedPaths (p : String) (es : List Event) :
    Event.probe p ∈ es ↔ p ∈ probedPaths es := by
  unfold probedPaths
  rw [List.mem_filterMap]
  constructor
  · intro h
    exact ⟨.probe p, h, rfl⟩
  · rintro ⟨e, he, hm⟩
    cases e <;> simp at hm
    subst hm
    exact he

/-- Body outcome when staging the upload to disk fails: no file was created. -/
theorem runBody_stage_fail (cfg : ApiConfig) (env : Env) (video : Video)
    (f : UploadFile) (h : env.stageOk = false) :
    runBody cfg env video f = (.error .stageWriteFailed, ⟨false, none, [], [], []⟩) := by
  unfold runBody
  simp [h]

/-- Body outcome when ffmpeg exits non-zero without leaving its output file:
only the staged file exists and `processedFilePath` is still unset. -/
theorem runBody_transcode_fail (cfg : ApiConfig) (env : Env) (video : Video)
    (f : UploadFile) (h1 : env.stageOk = true) (h2 : env.ffmpeg.exitCode ≠ 0)
    (h3 : env.ffmpeg.leavesOutputOnFailure = false) :
    runBody cfg env video f =
      (.error (.ffmpegFailed env.ffmpeg.exitCode env.ffmpeg.stderr),
       ⟨true, none, [tempFilePath env], [.acquire (tempFilePath env)], []⟩) := by
  unfold runBody processVideoForFastStart
  simp [h1, h2, h3]

/-- Body outcome when ffmpeg exits non-zero having created its output file:
the output file is on disk but `processedFilePath` is still unset, so the
`finally` block will not release it. -/
theorem runBody_transcode_fail_left (cfg : ApiConfig) (env : Env) (video : Video)
    (f : UploadFile) (h1 : env.stageOk = true) (h2 : env.ffmpeg.exitCode ≠ 0)
    (h3 : env.ffmpeg.leavesOutputOnFailure = true) :
    runBody cfg env video f =
      (.error (.ffmpegFailed env.ffmpeg.exitCode env.ffmpeg.stderr),
       ⟨true, none, [tempFilePath env, tempFilePath env ++ ".processed"],
        [.acquire (tempFilePath env), .acquire (tempFilePath env ++ ".processed")],
        []⟩) := by
  unfold runBody processVideoForFastStart
  simp [h1, h2, h3]

/-- Body outcome when the probe step fails: both temp files exist and are
tracked. -/
theorem runBody_probe_fail (cfg : ApiConfig) (env : Env) (video : Video)
    (f : UploadFile) (e : RunError) (h1 : env.stageOk = true)
    (h2 : env.ffmpeg.exitCode = 0)
    (h3 : getVideoAspectRatio (tempFilePath env ++ ".processed") env.ffprobe = .error e) :
    runBody cfg env video f =
      (.error e,
       ⟨true, some (tempFilePath env ++ ".processed"),
        [tempFilePath env, tempFilePath env ++ ".processed"],
        [.acquire (tempFilePath env), .acquire (tempFilePath env ++ ".processed"),
         .probe (tempFilePath env ++ ".processed")],
        []⟩) := by
  unfold runBody processVideoForFastStart
  simp [h1, h2, h3]

/-- Body outcome when the S3 transfer fails: both temp files exist and are
tracked, the S3 put was attempted, no database update happened. -/
theorem runBody_s3_fail (cfg : ApiConfig) (env : Env) (video : Video)
    (f : UploadFile) (ar : String) (h1 : env.stageOk = true)
    (h2 : env.ffmpeg.exitCode = 0)
    (h3 : getVideoAspectRatio (tempFilePath env ++ ".processed") env.ffprobe = .ok ar)
    (h4 : env.s3WriteOk = false) :
    runBody cfg env video f =
      (.error .s3WriteFailed,
       ⟨true, some (tempFilePath env ++ ".processed"),
        [tempFilePath env, tempFilePath env ++ ".processed"],
        [.acquire (tempFilePath env), .acquire (tempFilePath env ++ ".processed"),
         .probe (tempFilePath env ++ ".processed"),
         .s3Write (ar ++ "/" ++ fileName env) f.type],
        []⟩) := by
  unfold runBody processVideoForFastStart
  simp [h1, h2, h3, h4]

/-- Body outcome of a fully successful run: the record is updated with the
CloudFront location of the orientation-prefixed key. -/
theorem runBody_success (cfg : ApiConfig) (env : Env) (video : Video)
    (f : UploadFile) (ar : String) (h1 : env.stageOk = true)
    (h2 : env.ffmpeg.exitCode = 0)
    (h3 : getVideoAspectRatio (tempFilePath env ++ ".processed") env.ffprobe = .ok ar)
    (h4 : env.s3WriteOk = true) :
    runBody cfg env video f =
      (.ok { video with videoURL := some (cfg.s3CfDistribution ++ "/" ++ (ar ++ "/" ++ fileName env)) },
       ⟨true, some (tempFilePath env ++ ".processed"),
        [tempFilePath env, tempFilePath env ++ ".processed"],
        [.acquire (tempFilePath env), .acquire (tempFilePath env ++ ".processed"),
         .probe (tempFilePath env ++ ".processed"),
         .s3Write (ar ++ "/" ++ fileName env) f.type],
        [{ video with videoURL := some (cfg.s3CfDistribution ++ "/" ++ (ar ++ "/" ++ fileName env)) }]⟩) := by
  unfold runBody processVideoForFastStart
  simp [h1, h2, h3, h4]

/-- C7: when the pre-checks reach validation and the declared size exceeds the
ceiling or the declared media type is not `video/mp4`, the run fails with a
validation failure (`BadRequestError`) and performs no disk write: no event,
no temp file, no database update. -/
theorem c7_validation_no_writes (cfg : ApiConfig) (env : Env) (i u : String)
    (video : Video) (f : UploadFile)
    (h1 : env.videoId = some i) (h2 : env.authUserID = some u)
    (h3 : env.video = some video) (h4 : video.userID = u)
    (h5 : env.videoFile = some f)
    (h6 : f.size > MAX_UPLOAD_SIZE ∨ f.type ≠ "video/mp4") :
    isValidationFailure (handlerUploadVideo cfg env).outcome = true ∧
    (handlerUploadVideo cfg env).events = [] ∧
    (handlerUploadVideo cfg env).disk = [] ∧
    (handlerUploadVideo cfg env).dbUpdates = [] := by
  have hpre : ∃ m, preChecks env = .error (.badRequest m) := by
    unfold preChecks
    rcases h6 with h6 | h6
    · exact ⟨"Video file is too large", by simp [h1, h2, h3, h4, h5, h6]⟩
    · by_cases hsz : f.size > MAX_UPLOAD_SIZE
      · exact ⟨"Video file is too large", by simp [h1, h2, h3, h4, h5, hsz]⟩
      · exact ⟨"Video must be an MP4 file", by simp [h1, h2, h3, h4, h5, hsz, h6]⟩
  obtain ⟨m, hm⟩ := hpre
  unfold handlerUploadVideo
  rw [hm]
  simp [isValidationFailure]

/-- Witness for C7: an upload declared one byte over the 1 GB ceiling. -/
theorem c7_validation_no_writes_witness :
    isValidationFailure (handlerUploadVideo cfgW envOversize).outcome = true ∧
    (handlerUploadVideo cfgW envOversize).events = [] ∧
    (handlerUploadVideo cfgW envOversize).disk = [] ∧
    (handlerUploadVideo cfgW envOversize).dbUpdates = [] :=
  c7_validation_no_writes cfgW envOversize "v1" "u1" videoW ⟨1073741825, "video/mp4"⟩
    rfl rfl rfl rfl rfl (Or.inl (by decide))

/-- C3 (amended): when the pre-checks pass, staging succeeds and ffmpeg exits
non-zero, the run fails with the transcode failure carrying the exit code and
stderr; provided the failed tool left no output file and the unlink of the
staged file succeeds, no temp file remains on disk.  The handler itself never
unlinks the suffix-derived output path on this path, so the amendment
conditions on the tool having left none. -/
theorem c3_transcode_failure_cleanup (cfg : ApiConfig) (env : Env)
    (video : Video) (f : UploadFile)
    (hpre : preChecks env = .ok (video, f))
    (hst : env.stageOk = true)
    (hx : env.ffmpeg.exitCode ≠ 0)
    (hleft : env.ffmpeg.leavesOutputOnFailure = false)
    (hul : env.unlinkOk (tempFilePath env) = true) :
    (handlerUploadVideo cfg env).outcome =
      .error (.ffmpegFailed env.ffmpeg.exitCode env.ffmpeg.stderr) ∧
    (handlerUploadVideo cfg env).disk = [] := by
  unfold handlerUploadVideo
  simp only [hpre]
  rw [runBody_transcode_fail cfg env video f hst hx hleft]
  simp [cleanup, releaseFile, hul]

/-- Witness for C3 at ffmpeg exit 1 with stderr "invalid data found". -/
theorem c3_transcode_failure_cleanup_witness :
    (handlerUploadVideo cfgW envTranscodeClean).outcome =
      .error (.ffmpegFailed 1 "invalid data found") ∧
    (handlerUploadVideo cfgW envTranscodeClean).disk = [] :=
  c3_transcode_failure_cleanup cfgW envTranscodeClean videoW fileW
    rfl rfl (by decide) rfl rfl

/-- C3 counterexample to the claim as stated: ffmpeg exits 1 with stderr
"invalid data found" having already created the suffix-derived output file;
the run fails with the transcode failure but that file remains on disk,
because `processedFilePath` is still null in the `finally` block. -/
theorem c3_counterexample :
    (handlerUploadVideo cfgW envTranscodeLeft).outcome =
      .error (.ffmpegFailed 1 "invalid data found") ∧
    (handlerUploadVideo cfgW envTranscodeLeft).disk = ["/tmp/aa.mp4.processed"] ∧
    (handlerUploadVideo cfgW envTranscodeLeft).disk ≠ [] :=
  ⟨rfl, rfl, by decide⟩

/-- When a failed ffmpeg leaves no output file, the acquired files of the body
are exactly the files its cleanup flags track, the body itself releases
nothing, and the processed path can only be the suffix-derived output path. -/
theorem runBody_state_shape (cfg : ApiConfig) (env : Env) (video : Video)
    (f : UploadFile) (h : env.ffmpeg.leavesOutputOnFailure = false) :
    acquiredPaths (runBody cfg env video f).2.events =
      ((if (runBody cfg env video f).2.tempFileCreated then [tempFilePath env] else []) ++
        (runBody cfg env video f).2.processedFilePath.toList) ∧
    releasedPaths (runBody cfg env video f).2.events = [] ∧
    ((runBody cfg env video f).2.processedFilePath = none ∨
      (runBody cfg env video f).2.processedFilePath = some (tempFilePath env ++ ".processed")) := by
  cases hst : env.stageOk with
  | false =>
    rw [runBody_stage_fail cfg env video f hst]
    simp [acquiredPaths, releasedPaths]
  | true =>
    by_cases hx : env.ffmpeg.exitCode = 0
    · cases hp : getVideoAspectRatio (tempFilePath env ++ ".processed") env.ffprobe with
      | error e =>
        rw [runBody_probe_fail cfg env video f e hst hx hp]
        simp [acquiredPaths, releasedPaths]
      | ok ar =>
        cases hs3 : env.s3WriteOk with
        | false =>
          rw [runBody_s3_fail cfg env video f ar hst hx hp hs3]
          simp [acquiredPaths, releasedPaths]
        | true =>
          rw [runBody_success cfg env video f ar hst hx hp hs3]
          simp [acquiredPaths, releasedPaths]
    · rw [runBody_transcode_fail cfg env video f hst hx h]
      simp [acquiredPaths, releasedPaths]

/-- C1 (amended): provided a failed ffmpeg leaves no partial output file,
every temp file created during the run has the unlink invoked on it exactly
once before the handler returns, on every exit path: the released paths are
exactly the acquired paths, without duplicates. -/
theorem c1_releases_match_acquisitions (cfg : ApiConfig) (env : Env)
    (h : env.ffmpeg.leavesOutputOnFailure = false) :
    releasedPaths (handlerUploadVideo cfg env).events =
      acquiredPaths (handlerUploadVideo cfg env).events ∧
    (acquiredPaths (handlerUploadVideo cfg env).events).Nodup := by
  unfold handlerUploadVideo
  cases hpre : preChecks env with
  | error e => simp [acquiredPaths, releasedPaths]
  | ok vf =>
    obtain ⟨video, f⟩ := vf
    simp only []
    obtain ⟨ha, hr, hshape⟩ := runBody_state_shape cfg env video f h
    rw [acquiredPaths_cleanup, releasedPaths_cleanup, hr, ha]
    constructor
    · simp
    · rcases hshape with hnone | hsome
      · rw [hnone]
        split <;> simp
      · rw [hsome]
        cases htf : (runBody cfg env video f).2.tempFileCreated with
        | false => simp
        | true =>
          simp only [if_true, Option.toList_some]
          simp [List.nodup_cons]
          exact fun hh => append_processed_ne (tempFilePath env) hh.symm

/-- The `try` body never releases a file; all unlinks happen in `finally`. -/
theorem runBody_no_release (cfg : ApiConfig) (env : Env) (video : Video)
    (f : UploadFile) :
    releasedPaths (runBody cfg env video f).2.events = [] := by
  cases hst : env.stageOk with
  | false =>
    rw [runBody_stage_fail cfg env video f hst]
    rfl
  | true =>
    by_cases hx : env.ffmpeg.exitCode = 0
    · cases hp : getVideoAspectRatio (tempFilePath env ++ ".processed") env.ffprobe with
      | error e =>
        rw [runBody_probe_fail cfg env video f e hst hx hp]
        rfl
      | ok ar =>
        cases hs3 : env.s3WriteOk with
        | false =>
          rw [runBody_s3_fail cfg env video f ar hst hx hp hs3]
          rfl
        | true =>
          rw [runBody_success cfg env video f ar hst hx hp hs3]
          rfl
    · cases hleft : env.ffmpeg.leavesOutputOnFailure with
      | false =>
        rw [runBody_transcode_fail cfg env video f hst hx hleft]
        rfl
      | true =>
        rw [runBody_transcode_fail_left cfg env video f hst hx hleft]
        rfl

/-- The body probes exactly the suffix-derived output path, and only when
staging succeeded and ffmpeg exited zero. -/
theorem runBody_probedPaths (cfg : ApiConfig) (env : Env) (video : Video)
    (f : UploadFile) :
    probedPaths (runBody cfg env video f).2.events =
      (if env.stageOk = true ∧ env.ffmpeg.exitCode = 0
       then [tempFilePath env ++ ".processed"] else []) := by
  cases hst : env.stageOk with
  | false =>
    rw [runBody_stage_fail cfg env video f hst]
    simp [probedPaths]
  | true =>
    by_cases hx : env.ffmpeg.exitCode = 0
    · cases hp : getVideoAspectRatio (tempFilePath env ++ ".processed") env.ffprobe with
      | error e =>
        rw [runBody_probe_fail cfg env video f e hst hx hp]
        simp [probedPaths, hx]
      | ok ar =>
        cases hs3 : env.s3WriteOk with
        | false =>
          rw [runBody_s3_fail cfg env video f ar hst hx hp hs3]
          simp [probedPaths, hx]
        | true =>
          rw [runBody_success cfg env video f ar hst hx hp hs3]
          simp [probedPaths, hx]
    · cases hleft : env.ffmpeg.leavesOutputOnFailure with
      | false =>
        rw [runBody_transcode_fail cfg env video f hst hx hleft]
        simp [probedPaths, hx]
      | true =>
        rw [runBody_transcode_fail_left cfg env video f hst hx hleft]
        simp [probedPaths, hx]

/-- A release block only releases its own path. -/
theorem release_mem_relBlock (env : Env) (q p : String)
    (h : Event.release p ∈ relBlock env q) : p = q := by
  unfold relBlock at h
  split at h <;> simp at h <;> exact h

/-- A release block for a failing unlink contains the warning event. -/
theorem warn_mem_relBlock (env : Env) (p : String) (hu : env.unlinkOk p = false) :
    Event.releaseWarn p ∈ relBlock env p := by
  unfold relBlock
  simp [hu]

/-- C8: whenever the probe is invoked, ffmpeg exited zero beforehand and the
probed path is exactly the suffix-derived output path the normalizer
returned, never the raw staged upload. -/
theorem c8_probe_only_normalized (cfg : ApiConfig) (env : Env) (p : String)
    (hp : Event.probe p ∈ (handlerUploadVideo cfg env).events) :
    env.ffmpeg.exitCode = 0 ∧ p = tempFilePath env ++ ".processed" ∧
      p ≠ tempFilePath env := by
  rw [mem_probedPaths] at hp
  unfold handlerUploadVideo at hp
  cases hpre : preChecks env with
  | error e =>
    simp only [hpre] at hp
    simp [probedPaths] at hp
  | ok vf =>
    obtain ⟨video, f⟩ := vf
    simp only [hpre] at hp
    rw [probedPaths_cleanup, runBody_probedPaths] at hp
    split at hp
    · next hcond =>
      simp at hp
      subst hp
      exact ⟨hcond.2, rfl, append_processed_ne (tempFilePath env)⟩
    · simp at hp

/-- C9: unlink failures during cleanup are caught: the outcome and the
database updates of a run are independent of which unlinks succeed, and every
failing unlink of a released path leaves a logged warning event. -/
theorem c9_cleanup_failure_nonfatal (cfg : ApiConfig) (env : Env)
    (u₁ u₂ : String → Bool) :
    (handlerUploadVideo cfg { env with unlinkOk := u₁ }).outcome =
      (handlerUploadVideo cfg { env with unlinkOk := u₂ }).outcome ∧
    (handlerUploadVideo cfg { env with unlinkOk := u₁ }).dbUpdates =
      (handlerUploadVideo cfg { env with unlinkOk := u₂ }).dbUpdates ∧
    ∀ p, Event.release p ∈ (handlerUploadVideo cfg env).events →
      env.unlinkOk p = false →
      Event.releaseWarn p ∈ (handlerUploadVideo cfg env).events := by
  have hpre : ∀ u, preChecks { env with unlinkOk := u } = preChecks env :=
    fun u => rfl
  have hbody : ∀ u (video : Video) (f : UploadFile),
      runBody cfg { env with unlinkOk := u } video f = runBody cfg env video f :=
    fun u video f => rfl
  refine ⟨?_, ?_, ?_⟩
  · unfold handlerUploadVideo
    rw [hpre u₁, hpre u₂]
    cases hpc : preChecks env with
    | error e => rfl
    | ok vf =>
      obtain ⟨video, f⟩ := vf
      simp only []
      rw [hbody u₁ video f, hbody u₂ video f]
  · unfold handlerUploadVideo
    rw [hpre u₁, hpre u₂]
    cases hpc : preChecks env with
    | error e => rfl
    | ok vf =>
      obtain ⟨video, f⟩ := vf
      simp only []
      rw [cleanup_dbUpdates, cleanup_dbUpdates, hbody u₁ video f, hbody u₂ video f]
  · intro p hrel hu
    unfold handlerUploadVideo at hrel ⊢
    cases hpc : preChecks env with
    | error e =>
      simp only [hpc] at hrel
      simp at hrel
    | ok vf =>
      obtain ⟨video, f⟩ := vf
      simp only [hpc] at hrel ⊢
      rw [cleanup_events] at hrel ⊢
      rcases List.mem_append.mp hrel with hrel1 | hrel2
      · rcases List.mem_append.mp hrel1 with hrel0 | hrelB1
        · exfalso
          have := (mem_releasedPaths p _).mp hrel0
          rw [runBody_no_release] at this
          simp at this
        · by_cases htf : (runBody cfg env video f).2.tempFileCreated = true
          · rw [if_pos htf] at hrelB1
            have hpt := release_mem_relBlock env (tempFilePath env) p hrelB1
            subst hpt
            refine List.mem_append_left _ (List.mem_append_right _ ?_)
            rw [if_pos htf]
            exact warn_mem_relBlock env _ hu
          · rw [if_neg htf] at hrelB1
            simp at hrelB1
      · cases hpf : (runBody cfg env video f).2.processedFilePath with
        | none =>
          rw [hpf] at hrel2
          simp at hrel2
        | some q =>
          rw [hpf] at hrel2
          simp only [] at hrel2
          have hpt := release_mem_relBlock env q p hrel2
          subst hpt
          refine List.mem_append_right _ ?_
          simpa using warn_mem_relBlock env p hu

/-- C10: `updateVideo` is invoked exactly on success, with the returned
record, and only after the S3 write was invoked and succeeded; on every
failure path the stored record is untouched. -/
theorem c10_db_update_only_on_success (cfg : ApiConfig) (env : Env) :
    ((handlerUploadVideo cfg env).dbUpdates =
      match (handlerUploadVideo cfg env).outcome with
      | .ok v => [v]
      | .error _ => []) ∧
    ((handlerUploadVideo cfg env).dbUpdates ≠ [] →
      env.s3WriteOk = true ∧
      ∃ k mt, Event.s3Write k mt ∈ (handlerUploadVideo cfg env).events) := by
  unfold handlerUploadVideo
  cases hpre : preChecks env with
  | error e => simp
  | ok vf =>
    obtain ⟨video, f⟩ := vf
    simp only []
    rw [cleanup_dbUpdates]
    cases hst : env.stageOk with
    | false =>
      rw [runBody_stage_fail cfg env video f hst]
      simp
    | true =>
      by_cases hx : env.ffmpeg.exitCode = 0
      · cases hp : getVideoAspectRatio (tempFilePath env ++ ".processed") env.ffprobe with
        | error e =>
          rw [runBody_probe_fail cfg env video f e hst hx hp]
          simp
        | ok ar =>
          cases hs3 : env.s3WriteOk with
          | false =>
            rw [runBody_s3_fail cfg env video f ar hst hx hp hs3]
            simp
          | true =>
            rw [runBody_success cfg env video f ar hst hx hp hs3]
            refine ⟨rfl, fun _ => ⟨rfl, ⟨ar ++ "/" ++ fileName env, f.type, ?_⟩⟩⟩
            rw [cleanup_events]
            refine List.mem_append_left _ (List.mem_append_left _ ?_)
            simp
      · cases hleft : env.ffmpeg.leavesOutputOnFailure with
        | false =>
          rw [runBody_transcode_fail cfg env video f hst hx hleft]
          simp
        | true =>
          rw [runBody_transcode_fail_left cfg env video f hst hx hleft]
          simp

/-- Witness for C1 on the failed-transcode run without leftover output. -/
theorem c1_releases_match_acquisitions_witness :
    releasedPaths (handlerUploadVideo cfgW envTranscodeClean).events =
      acquiredPaths (handlerUploadVideo cfgW envTranscodeClean).events ∧
    (acquiredPaths (handlerUploadVideo cfgW envTranscodeClean).events).Nodup :=
  c1_releases_match_acquisitions cfgW envTranscodeClean rfl

/-- C1 counterexample to the claim as stated: when the failed ffmpeg has
already created its output file, the run acquires two files but releases only
the staged one, so acquisitions and releases do not balance. -/
theorem c1_counterexample :
    acquiredPaths (handlerUploadVideo cfgW envTranscodeLeft).events =
      ["/tmp/aa.mp4", "/tmp/aa.mp4.processed"] ∧
    releasedPaths (handlerUploadVideo cfgW envTranscodeLeft).events = ["/tmp/aa.mp4"] ∧
    (acquiredPaths (handlerUploadVideo cfgW envTranscodeLeft).events).length ≠
      (releasedPaths (handlerUploadVideo cfgW envTranscodeLeft).events).length :=
  ⟨rfl, rfl, by decide⟩

/-- Witness for C8 on a run that reaches the probe step. -/
theorem c8_probe_only_normalized_witness :
    envNoHeight.ffmpeg.exitCode = 0 ∧
    "/tmp/aa.mp4.processed" = tempFilePath envNoHeight ++ ".processed" ∧
    "/tmp/aa.mp4.processed" ≠ tempFilePath envNoHeight :=
  c8_probe_only_normalized cfgW envNoHeight "/tmp/aa.mp4.processed" (by decide)

/-- Witness for C9 on a failed-transcode run with all unlinks failing. -/
theorem c9_cleanup_failure_nonfatal_witness :
    ((handlerUploadVideo cfgW { envUnlinkFail with unlinkOk := fun _ => false }).outcome =
      (handlerUploadVideo cfgW { envUnlinkFail with unlinkOk := fun _ => true }).outcome) ∧
    ((handlerUploadVideo cfgW { envUnlinkFail with unlinkOk := fun _ => false }).dbUpdates =
      (handlerUploadVideo cfgW { envUnlinkFail with unlinkOk := fun _ => true }).dbUpdates) ∧
    Event.releaseWarn "/tmp/aa.mp4" ∈ (handlerUploadVideo cfgW envUnlinkFail).events := by
  have h := c9_cleanup_failure_nonfatal cfgW envUnlinkFail (fun _ => false) (fun _ => true)
  exact ⟨h.1, h.2.1, h.2.2 "/tmp/aa.mp4" (by decide) rfl⟩

/-- C4: a successful run writes exactly one storage key, the classification
label followed by a slash and the file name, and records in the returned
video the configured public base followed by a slash and that key. -/
theorem c4_storage_key_and_location (cfg : ApiConfig) (env : Env) (v : Video)
    (w h : Int) (rest : List StreamInfo)
    (hout : (handlerUploadVideo cfg env).outcome = .ok v)
    (hs : env.ffprobe.stdout = .streams (⟨some w, some h⟩ :: rest)) :
    s3Keys (handlerUploadVideo cfg env).events =
      [classifyDims w h ++ "/" ++ fileName env] ∧
    v.videoURL =
      some (cfg.s3CfDistribution ++ "/" ++ (classifyDims w h ++ "/" ++ fileName env)) := by
  unfold handlerUploadVideo at hout ⊢
  cases hpre : preChecks env with
  | error e =>
    rw [hpre] at hout
    simp at hout
  | ok vf =>
    obtain ⟨video, f⟩ := vf
    rw [hpre] at hout
    simp only [hpre]
    simp only [] at hout
    cases hst : env.stageOk with
    | false =>
      rw [runBody_stage_fail cfg env video f hst] at hout
      simp at hout
    | true =>
      by_cases hx : env.ffmpeg.exitCode = 0
      · cases hp : getVideoAspectRatio (tempFilePath env ++ ".processed") env.ffprobe with
        | error e =>
          rw [runBody_probe_fail cfg env video f e hst hx hp] at hout
          simp at hout
        | ok ar =>
          cases hs3 : env.s3WriteOk with
          | false =>
            rw [runBody_s3_fail cfg env video f ar hst hx hp hs3] at hout
            simp at hout
          | true =>
            have har : ar = classifyDims w h := by
              unfold getVideoAspectRatio at hp
              rw [hs] at hp
              by_cases hpx : env.ffprobe.exitCode = 0
              · simp only [hpx] at hp
                simp at hp
                split at hp
                · simp at hp
                · split at hp
                  · simp at hp
                  · exact (Except.ok.inj hp).symm
              · simp [hpx] at hp
            subst har
            rw [runBody_success cfg env video f (classifyDims w h) hst hx hp hs3] at hout
            simp only [] at hout
            rw [runBody_success cfg env video f (classifyDims w h) hst hx hp hs3]
            have hv : v = { video with videoURL := some (cfg.s3CfDistribution ++ "/" ++ (classifyDims w h ++ "/" ++ fileName env)) } := by
              simpa using hout.symm
            constructor
            · rw [s3Keys_cleanup]
              simp [s3Keys]
            · rw [hv]
      · cases hleft : env.ffmpeg.leavesOutputOnFailure with
        | false =>
          rw [runBody_transcode_fail cfg env video f hst hx hleft] at hout
          simp at hout
        | true =>
          rw [runBody_transcode_fail_left cfg env video f hst hx hleft] at hout
          simp at hout

/-- Witness for C4: 1920×1080 publishes under `landscape/…`, 1080×1920 under
`portrait/…`. -/
theorem c4_storage_key_and_location_witness :
    s3Keys (handlerUploadVideo cfgW envLandscape).events = ["landscape/aa.mp4"] ∧
    s3Keys (handlerUploadVideo cfgW envPortrait).events = ["portrait/aa.mp4"] := by
  constructor
  · have hcd : classifyDims 1920 1080 = "landscape" := by
      unfold classifyDims
      norm_num [abs_lt, le_abs]
    have hout : (handlerUploadVideo cfgW envLandscape).outcome =
        .ok ⟨"v1", "u1", some "https://cdn.example.com/landscape/aa.mp4"⟩ := by
      simp [handlerUploadVideo, preChecks, runBody, cleanup, releaseFile,
        getVideoAspectRatio, processVideoForFastStart, tempFilePath, fileName,
        MAX_UPLOAD_SIZE, envLandscape, cfgW, videoW, fileW, hcd]
    have h1 := (c4_storage_key_and_location cfgW envLandscape _ 1920 1080 [] hout rfl).1
    rw [h1, hcd]
    rfl
  · have hcd : classifyDims 1080 1920 = "portrait" := by
      unfold classifyDims
      norm_num [abs_lt, le_abs]
    have hout : (handlerUploadVideo cfgW envPortrait).outcome =
        .ok ⟨"v1", "u1", some "https://cdn.example.com/portrait/aa.mp4"⟩ := by
      simp [handlerUploadVideo, preChecks, runBody, cleanup, releaseFile,
        getVideoAspectRatio, processVideoForFastStart, tempFilePath, fileName,
        MAX_UPLOAD_SIZE, envPortrait, cfgW, videoW, fileW, hcd]
    have h1 := (c4_storage_key_and_location cfgW envPortrait _ 1080 1920 [] hout rfl).1
    rw [h1, hcd]
    rfl

/-- Witness for C10 on a fully successful run. -/
theorem c10_db_update_only_on_success_witness :
    (handlerUploadVideo cfgW envLandscape).dbUpdates =
      [⟨"v1", "u1", some "https://cdn.example.com/landscape/aa.mp4"⟩] ∧
    envLandscape.s3WriteOk = true ∧
    ∃ k mt, Event.s3Write k mt ∈ (handlerUploadVideo cfgW envLandscape).events := by
  have h := c10_db_update_only_on_success cfgW envLandscape
  have hcd : classifyDims 1920 1080 = "landscape" := by
    unfold classifyDims
    norm_num [abs_lt, le_abs]
  have hout : (handlerUploadVideo cfgW envLandscape).outcome =
      .ok ⟨"v1", "u1", some "https://cdn.example.com/landscape/aa.mp4"⟩ := by
    simp [handlerUploadVideo, preChecks, runBody, cleanup, releaseFile,
      getVideoAspectRatio, processVideoForFastStart, tempFilePath, fileName,
      MAX_UPLOAD_SIZE, envLandscape, cfgW, videoW, fileW, hcd]
  have hdb : (handlerUploadVideo cfgW envLandscape).dbUpdates =
      [⟨"v1", "u1", some "https://cdn.example.com/landscape/aa.mp4"⟩] := by
    rw [h.1, hout]
  exact ⟨hdb, (h.2 (by rw [hdb]; simp)).1, (h.2 (by rw [hdb]; simp)).2⟩
